import Mathlib

/-!
Verification of `src/backend/services/video_generator.py` (class `VideoGenerator`).

The embedding models:
* Python values returned by `json.loads` / the fal backend (`PyVal`),
* the error classifier `_parse_fal_error` (including its JSON-array fast path),
* the retry orchestrator `generate_video_from_image` as a function of an
  abstract backend (upload result plus the outcome of each generation attempt),
  instrumented with an event trace of upload / submit calls,
* `generate_character_video` with its aspect-ratio remap and post-processing calls,
* the temporary-file lifecycle of `trim_video` / `add_letterbox_to_square`,
* the environment mutation done by `VideoGenerator.__init__`.
-/

namespace PmaxHelper

/-- Python values as they appear in this module: results of `json.loads`
and backend response dictionaries. -/
inductive PyVal where
  | pyNone
  | pyBool (b : Bool)
  | pyInt (n : Int)
  | pyStr (s : String)
  | pyList (xs : List PyVal)
  | pyDict (fs : List (String × PyVal))

/-- Python truthiness (`if x:`). -/
def truthy : PyVal → Bool
  | .pyNone => false
  | .pyBool b => b
  | .pyInt n => n != 0
  | .pyStr s => !s.isEmpty
  | .pyList xs => !xs.isEmpty
  | .pyDict fs => !fs.isEmpty

def isJList : PyVal → Bool
  | .pyList _ => true
  | _ => false

/-- First element of a Python list (callers guard non-emptiness via `truthy`). -/
def listFirst : PyVal → PyVal
  | .pyList (x :: _) => x
  | _ => .pyNone

/-- `dict.get(k, dflt)`; JSON objects with duplicate keys keep the last binding. -/
def dictGet (fs : List (String × PyVal)) (k : String) (dflt : PyVal) : PyVal :=
  match fs.reverse.find? (fun p => p.1 == k) with
  | some p => p.2
  | none => dflt

def pyTypeName : PyVal → String
  | .pyNone => "NoneType"
  | .pyBool _ => "bool"
  | .pyInt _ => "int"
  | .pyStr _ => "str"
  | .pyList _ => "list"
  | .pyDict _ => "dict"

/-- Message of the `AttributeError` raised by `v.get(...)` when `v` is not a dict. -/
def noAttrGetMsg (v : PyVal) : String :=
  "'" ++ pyTypeName v ++ "' object has no attribute 'get'"

mutual
/-- Python `repr` (quote escaping inside strings is not modelled; the strings
this development evaluates contain no quotes). -/
def pyRepr : PyVal → String
  | .pyNone => "None"
  | .pyBool true => "True"
  | .pyBool false => "False"
  | .pyInt n => toString n
  | .pyStr s => "'" ++ s ++ "'"
  | .pyList xs => "[" ++ pyReprList xs ++ "]"
  | .pyDict fs => "\x7b" ++ pyReprDict fs ++ "\x7d"

def pyReprList : List PyVal → String
  | [] => ""
  | [x] => pyRepr x
  | x :: y :: t => pyRepr x ++ ", " ++ pyReprList (y :: t)

def pyReprDict : List (String × PyVal) → String
  | [] => ""
  | [(k, v)] => "'" ++ k ++ "': " ++ pyRepr v
  | (k, v) :: y :: t => "'" ++ k ++ "': " ++ pyRepr v ++ ", " ++ pyReprDict (y :: t)
end

/-- Python `str()`: identity on strings, `repr` on containers. -/
def pyToStr : PyVal → String
  | .pyStr s => s
  | v => pyRepr v

/-- Does the char list `n` occur as a contiguous run starting at the head of `h`? -/
def listStarts : List Char → List Char → Bool
  | [], _ => true
  | _ :: _, [] => false
  | a :: as, b :: bs => a == b && listStarts as bs

/-- Does `n` occur contiguously anywhere inside `h`? (Python `n in h` on strings.) -/
def listSub (n : List Char) : List Char → Bool
  | [] => n.isEmpty
  | h :: t => listStarts n (h :: t) || listSub n (t)

/-- Python `needle in hay` substring test. -/
def strContains (hay needle : String) : Bool :=
  listSub needle.toList hay.toList

/-- ASCII case folding (the classifier's keywords are all ASCII). -/
def asciiLower (c : Char) : Char :=
  if 65 ≤ c.toNat && c.toNat ≤ 90 then Char.ofNat (c.toNat + 32) else c

/-- Model of Python `str.lower()`. -/
def strLower (s : String) : String :=
  String.mk (s.toList.map asciiLower)

/-- Python `s.startswith('[')`. -/
def startsWithLB (s : String) : Bool :=
  match s.toList with
  | c :: _ => c == '['
  | [] => false

/-- Python `s.endswith(']')`. -/
def endsWithRB (s : String) : Bool :=
  match s.toList.getLast? with
  | some c => c == ']'
  | none => false

/-! ### A small JSON parser (model of `json.loads`)

Fuel-indexed recursive descent; floats are not modelled (no claim uses them
and a fractional literal simply fails to parse). -/

def skipWs : List Char → List Char
  | [] => []
  | c :: cs => if c == ' ' || c == '\t' || c == '\n' || c == '\r' then skipWs cs else c :: cs

def lbrace : Char := Char.ofNat 123
def rbrace : Char := Char.ofNat 125

/-- Characters of a JSON string literal after the opening quote; returns the
decoded characters and whatever follows the closing quote. -/
def parseStrChars : List Char → Option (List Char × List Char)
  | [] => none
  | c :: cs =>
    if c == '"' then some ([], cs)
    else if c == '\\' then
      match cs with
      | [] => none
      | e :: cs2 =>
        match (if e == '"' then some '"'
               else if e == '\\' then some '\\'
               else if e == '/' then some '/'
               else if e == 'n' then some '\n'
               else if e == 't' then some '\t'
               else if e == 'r' then some '\r'
               else none) with
        | none => none
        | some ch => (parseStrChars cs2).map (fun p => (ch :: p.1, p.2))
    else (parseStrChars cs).map (fun p => (c :: p.1, p.2))

def parseDigits : List Char → (List Char × List Char)
  | [] => ([], [])
  | c :: cs =>
    if c.isDigit then
      let p := parseDigits cs
      (c :: p.1, p.2)
    else ([], c :: cs)

def digitsToNat (ds : List Char) : Nat :=
  ds.foldl (fun n c => n * 10 + (c.toNat - 48)) 0

def parseNumber (cs : List Char) : Option (PyVal × List Char) :=
  let p : Bool × List Char := match cs with
    | '-' :: t => (true, t)
    | _ => (false, cs)
  match parseDigits p.2 with
  | ([], _) => none
  | (ds, rest) =>
    match rest with
    | '.' :: _ => none
    | 'e' :: _ => none
    | 'E' :: _ => none
    | _ =>
      let n : Int := digitsToNat ds
      some (.pyInt (if p.1 then -n else n), rest)

/-- Consume the exact literal `ls` from the front of the input. -/
def dropLit : List Char → List Char → Option (List Char)
  | [], rest => some rest
  | _ :: _, [] => none
  | l :: ls, c :: rest => if c == l then dropLit ls rest else none

mutual
def parseJVal : Nat → List Char → Option (PyVal × List Char)
  | 0, _ => none
  | fuel + 1, cs =>
    match cs with
    | [] => none
    | c :: rest =>
      if c == '[' then
        match skipWs rest with
        | [] => none
        | d :: r2 =>
          if d == ']' then some (.pyList [], r2)
          else
            match parseItems fuel (d :: r2) with
            | some (xs, r3) => some (.pyList xs, r3)
            | none => none
      else if c == lbrace then
        match skipWs rest with
        | [] => none
        | d :: r2 =>
          if d == rbrace then some (.pyDict [], r2)
          else
            match parsePairs fuel (d :: r2) with
            | some (fs, r3) => some (.pyDict fs, r3)
            | none => none
      else if c == '"' then
        (parseStrChars rest).map (fun p => (.pyStr (String.mk p.1), p.2))
      else if c == 't' then (dropLit "rue".toList rest).map (fun r => (.pyBool true, r))
      else if c == 'f' then (dropLit "alse".toList rest).map (fun r => (.pyBool false, r))
      else if c == 'n' then (dropLit "ull".toList rest).map (fun r => (.pyNone, r))
      else if c == '-' || c.isDigit then parseNumber (c :: rest)
      else none

def parseItems : Nat → List Char → Option (List PyVal × List Char)
  | 0, _ => none
  | fuel + 1, cs =>
    match parseJVal fuel (skipWs cs) with
    | some (v, r1) =>
      match skipWs r1 with
      | ',' :: r2 => (parseItems fuel r2).map (fun p => (v :: p.1, p.2))
      | ']' :: r2 => some ([v], r2)
      | _ => none
    | none => none

def parsePairs : Nat → List Char → Option (List (String × PyVal) × List Char)
  | 0, _ => none
  | fuel + 1, cs =>
    match skipWs cs with
    | [] => none
    | c :: rest =>
      if c == '"' then
        match parseStrChars rest with
        | some (kcs, r1) =>
          match skipWs r1 with
          | ':' :: r2 =>
            match parseJVal fuel (skipWs r2) with
            | some (v, r3) =>
              match skipWs r3 with
              | [] => none
              | d :: r4 =>
                if d == ',' then
                  (parsePairs fuel r4).map (fun p => ((String.mk kcs, v) :: p.1, p.2))
                else if d == rbrace then some ([(String.mk kcs, v)], r4)
                else none
            | none => none
          | _ => none
        | none => none
      else none
end

/-- Model of `json.loads` on the full string (`none` = `JSONDecodeError`). -/
def jsonLoads (s : String) : Option PyVal :=
  match parseJVal (2 * s.length + 4) (skipWs s.toList) with
  | some (v, rest) => if (skipWs rest).isEmpty then some v else none
  | none => none

/-! ### `_parse_fal_error` -/

/-- The record `_parse_fal_error` returns (`type` / `msg` / `details`). -/
structure ParsedError where
  type : PyVal
  msg : PyVal
  details : PyVal

/-- Keyword fallback of `_parse_fal_error`: lower-case the raw error string and
look for the literal token or for both of the substrings "content" and "policy". -/
def kwClassify (errorStr : String) : ParsedError :=
  let lower := strLower errorStr
  if strContains lower "content_policy_violation" ||
      (strContains lower "content" && strContains lower "policy") then
    ⟨.pyStr "content_policy_violation", .pyStr errorStr, .pyDict []⟩
  else
    ⟨.pyStr "unknown", .pyStr errorStr, .pyDict []⟩

/-- `VideoGenerator._parse_fal_error`.  `.error m` models an exception with
message `m` escaping the classifier itself (the `except` clause around the
JSON path only catches `JSONDecodeError`, `KeyError` and `IndexError`, so the
`AttributeError` from calling `.get` on a non-dict first element propagates). -/
def parseFalError (errorStr : String) : Except String ParsedError :=
  if startsWithLB errorStr && endsWithRB errorStr then
    match jsonLoads errorStr with
    | some v =>
      if truthy v && isJList v then
        match listFirst v with
        | .pyDict fs =>
          .ok ⟨dictGet fs "type" (.pyStr ""), dictGet fs "msg" (.pyStr ""), .pyDict fs⟩
        | other => .error (noAttrGetMsg other)
      else .ok (kwClassify errorStr)
    | none => .ok (kwClassify errorStr)
  else .ok (kwClassify errorStr)

/-- The comparison `parsed_error['type'] == 'content_policy_violation'`
(Python `==` between a non-string value and a string is `False`). -/
def pyEqStr : PyVal → String → Bool
  | .pyStr s, t => s == t
  | _, _ => false

/-- Does the string classify as a content-policy violation (and the classifier
itself return normally)? -/
def isCPVstr (s : String) : Bool :=
  match parseFalError s with
  | .ok p => pyEqStr p.type "content_policy_violation"
  | .error _ => false

/-! ### `generate_video_from_image` -/

/-- Outcome of one `fal_client.subscribe` call: a response dictionary, or an
exception whose `str()` is `errorStr`. -/
inductive AttemptResult where
  | success (result : List (String × PyVal))
  | failure (errorStr : String)

/-- The external fal backend: the result of `fal_client.upload` (`.error` =
exception message) and the result of each sequential generation attempt. -/
structure Backend where
  upload : Except String String
  subscribe : Nat → AttemptResult

/-- Observable calls made by the orchestrator. -/
inductive Event where
  | uploadCall
  | submitCall (imageUrl : String) (prompt : String) (duration : Int) (aspectRatio : String)
deriving DecidableEq

/-- How a call to `generate_video_from_image` ends. -/
inductive GenOutcome where
  | ok (videoUrl : PyVal)
  | contentPolicyViolationError (msg : String)
  | videoGenerationError (msg : String)
  | exn (msg : String)
  | attrError (msg : String)

/-- `result.get('video', \x7b\x7d).get('url')` followed by the
`if not video_url: raise` check inside the `try` block.  `.error m` is the
`str()` of the exception that the surrounding `except` clause will catch. -/
def extractVideoUrl (fs : List (String × PyVal)) : Except String PyVal :=
  match dictGet fs "video" (.pyDict []) with
  | .pyDict vfs =>
    let u := dictGet vfs "url" .pyNone
    if truthy u then .ok u
    else .error ("Video URL not found in response. Full response: " ++ pyRepr (.pyDict fs))
  | other => .error (noAttrGetMsg other)

/-- The body of the `try` block for one attempt, as the
url-or-caught-exception it produces. -/
def attemptResult : AttemptResult → Except String PyVal
  | .success fs => extractVideoUrl fs
  | .failure s => .error s

/-- The user-facing message of the `ContentPolicyViolationError` raised after
the last attempt. -/
def cpvMessage (maxRetries : Nat) : String :=
  "動画生成がコンテンツポリシー違反により拒否されました（" ++ toString maxRetries ++
  "回試行）。\n以下の理由が考えられます:\n・画像に不適切なコンテンツが含まれている可能性\n" ++
  "・プロンプトに不適切な表現が含まれている可能性\n・人物画像の場合、服装や背景が原因の可能性\n\n" ++
  "対処方法:\n・より一般的な画像を使用してください\n・別のキャラクター画像をお試しください\n" ++
  "・プロンプト内容を確認してください"

/-- Message of the `VideoGenerationError` raised for a non-policy error. -/
def genFailMsg (p : ParsedError) : String :=
  "動画生成に失敗しました: " ++ pyToStr p.msg

/-- Message of the fall-through `VideoGenerationError` after the loop. -/
def exhaustedMsg : String :=
  "予期しないエラー: リトライループが完了しましたが結果がありません"

/-- The `for attempt in range(max_retries)` loop.  `r` is the number of
iterations still to run (`attempt + r = maxRetries` at every call); the second
component is the trace of submit calls made from this point on. -/
def genLoop (sub : Nat → AttemptResult) (maxRetries : Nat) (url prompt : String)
    (duration : Int) (aspectRatio : String) : Nat → Nat → GenOutcome × List Event
  | _, 0 => (.videoGenerationError exhaustedMsg, [])
  | attempt, r + 1 =>
    let ev := Event.submitCall url prompt duration aspectRatio
    match attemptResult (sub attempt) with
    | .ok u => (.ok u, [ev])
    | .error es =>
      match parseFalError es with
      | .error m => (.attrError m, [ev])
      | .ok p =>
        if pyEqStr p.type "content_policy_violation" then
          if attempt = maxRetries - 1 then
            (.contentPolicyViolationError (cpvMessage maxRetries), [ev])
          else
            let rest := genLoop sub maxRetries url prompt duration aspectRatio (attempt + 1) r
            (rest.1, ev :: rest.2)
        else (.videoGenerationError (genFailMsg p), [ev])

/-- `VideoGenerator.generate_video_from_image`: upload once, then the retry
loop.  Upload failure raises `Exception('Failed to upload image: ...')`. -/
def generateVideoFromImage (be : Backend) (prompt : String) (duration : Int)
    (aspectRatio : String) (maxRetries : Nat) : GenOutcome × List Event :=
  match be.upload with
  | .error e => (.exn ("Failed to upload image: " ++ e), [.uploadCall])
  | .ok url =>
    let r := genLoop be.subscribe maxRetries url prompt duration aspectRatio 0 maxRetries
    (r.1, .uploadCall :: r.2)

def isUploadEv : Event → Bool
  | .uploadCall => true
  | _ => false

def isSubmitEv : Event → Bool
  | .submitCall _ _ _ _ => true
  | _ => false

def countUpload (evs : List Event) : Nat := evs.countP isUploadEv

def countSubmit (evs : List Event) : Nat := evs.countP isSubmitEv

/-- Every submit event in the trace carries the given uploaded-asset url. -/
def allSubmitsUse (url : String) (evs : List Event) : Bool :=
  evs.all fun e =>
    match e with
    | .submitCall u _ _ _ => u == url
    | .uploadCall => true

/-- Every submit event in the trace carries the given aspect ratio and duration. -/
def submitsRatioDur (ar : String) (d : Int) (evs : List Event) : Bool :=
  evs.all fun e =>
    match e with
    | .submitCall _ _ dd a => a == ar && dd == d
    | .uploadCall => true

/-- An attempt whose caught exception string classifies as a content-policy
violation (covers both a backend failure and the raised missing-URL error). -/
def cpvFailAt (t : AttemptResult) : Prop :=
  ∃ s, attemptResult t = .error s ∧ isCPVstr s = true

/-! ### `generate_character_video` -/

/-- The `start_time=0.3` literal passed to the post-processing calls
(an exact rational; no floating-point arithmetic is performed on it). -/
def trimStartTime : Rat := 3 / 10

/-- Post-processing calls observable from `generate_character_video`. -/
inductive PostEvent where
  | trimCall (videoUrl : PyVal) (startTime : Rat) (squareCrop : Bool)
  | letterboxCall (videoUrl : PyVal) (startTime : Rat)

def noLetterbox (pevs : List PostEvent) : Bool :=
  pevs.all fun e =>
    match e with
    | .letterboxCall _ _ => false
    | _ => true

/-- How a call to `generate_character_video` ends. -/
inductive CharOutcome where
  | success (videoData : String)
  | raisedFromGen (g : GenOutcome)
  | postFailed (msg : String)

/-- The default-prompt logic `if not prompt:` (both `None` and the empty
string are falsy). -/
def charPrompt (promptArg : Option String) : String :=
  match promptArg with
  | some p => if p = "" then
      "Make this character dance with lively and fun movements. Add energetic body language and natural motion."
    else p
  | none =>
      "Make this character dance with lively and fun movements. Add energetic body language and natural motion."

/-- `VideoGenerator.generate_character_video`.  `post` is the outcome of the
`trim_video` call (returned bytes, modelled abstractly as a `String`, or the
raised exception's message).  Notes kept from the source:
* the `if 'error' in result` early return never fires, because the success
  dictionary of `generate_video_from_image` has only the keys
  `video_url` / `status`;
* both aspect-ratio branches call `trim_video` with `start_time=0.3` and
  differ only in `square_crop`; `add_letterbox_to_square` is never called. -/
def generateCharacterVideo (be : Backend) (post : Except String String)
    (promptArg : Option String) (aspectRatio : String) :
    CharOutcome × List Event × List PostEvent :=
  let prompt := charPrompt promptArg
  let actualRatio := if aspectRatio == "1:1" then "9:16" else aspectRatio
  let g := generateVideoFromImage be prompt 12 actualRatio 1
  match g.1 with
  | .ok u =>
    let pevs := [PostEvent.trimCall u trimStartTime (aspectRatio == "1:1")]
    match post with
    | .ok bytes => (.success bytes, g.2, pevs)
    | .error m => (.postFailed ("動画の後処理に失敗しました: " ++ m), g.2, pevs)
  | o => (.raisedFromGen o, g.2, [])

/-! ### Temporary-file lifecycle of `trim_video` / `add_letterbox_to_square`

Both functions download to a `NamedTemporaryFile(delete=False)` input file,
decode / transform, write to a second `NamedTemporaryFile(delete=False)`
output file, and on success `os.unlink` both.  The `except` branch deletes
only the input file.  The model runs the steps in source order against an
oracle saying which step raises, and returns whether the call succeeded
together with the temporary files still on disk afterwards. -/

inductive TempFile where
  | inputF
  | outputF
deriving DecidableEq

inductive TransformStep where
  | download
  | decode
  | subclipStep
  | cropStep
  | compositeStep
  | encode
  | readOut
deriving DecidableEq

/-- The `except` branch: `if os.path.exists(input_path): os.unlink(input_path)`. -/
def exceptCleanup (files : List TempFile) : List TempFile :=
  files.filter fun f =>
    match f with
    | .inputF => false
    | .outputF => true

/-- `VideoGenerator.trim_video` as its temporary-file trace. -/
def trimVideoRun (failAt : TransformStep → Bool) (startTime : Rat) (squareCrop : Bool) :
    Bool × List TempFile :=
  if failAt .download then (false, []) else
  -- input NamedTemporaryFile written
  if failAt .decode then (false, exceptCleanup [.inputF]) else
  if 0 < startTime && failAt .subclipStep then (false, exceptCleanup [.inputF]) else
  if squareCrop && failAt .cropStep then (false, exceptCleanup [.inputF]) else
  -- output NamedTemporaryFile created before write_videofile runs
  if failAt .encode then (false, exceptCleanup [.inputF, .outputF]) else
  if failAt .readOut then (false, exceptCleanup [.inputF, .outputF]) else
  (true, [])

/-- `VideoGenerator.add_letterbox_to_square` as its temporary-file trace. -/
def addLetterboxRun (failAt : TransformStep → Bool) (startTime : Rat) :
    Bool × List TempFile :=
  if failAt .download then (false, []) else
  if failAt .decode then (false, exceptCleanup [.inputF]) else
  if 0 < startTime && failAt .subclipStep then (false, exceptCleanup [.inputF]) else
  if failAt .compositeStep then (false, exceptCleanup [.inputF]) else
  if failAt .encode then (false, exceptCleanup [.inputF, .outputF]) else
  if failAt .readOut then (false, exceptCleanup [.inputF, .outputF]) else
  (true, [])

/-- Oracle under which only the encode step (`write_videofile`) raises. -/
def encodeFails : TransformStep → Bool
  | .encode => true
  | _ => false

/-- Oracle under which only the decode step (`VideoFileClip`) raises —
the spec's "induced failure via corrupt input". -/
def decodeFails : TransformStep → Bool
  | .decode => true
  | _ => false

/-- Oracle under which every step succeeds. -/
def noFails : TransformStep → Bool := fun _ => false

/-! ### `VideoGenerator.__init__` and the process environment -/

/-- The process environment as an association list. -/
abbrev Env := List (String × String)

/-- `os.environ[k] = v`. -/
def envSet (env : Env) (k v : String) : Env :=
  if env.any (fun p => p.1 == k) then
    env.map (fun p => if p.1 == k then (k, v) else p)
  else env ++ [(k, v)]

/-- `VideoGenerator.__init__`: `if fal_key: os.environ['FAL_KEY'] = fal_key`
(a `None` or empty key is falsy and leaves the environment alone). -/
def videoGeneratorInit (falKey : Option String) (env : Env) : Env :=
  match falKey with
  | some k => if k = "" then env else envSet env "FAL_KEY" k
  | none => env

/-! ### Helper lemmas about the retry loop -/

theorem genLoop_trace (sub : Nat → AttemptResult) (maxR : Nat) (url p : String)
    (d : Int) (ar : String) :
    ∀ r a, ∃ n, (genLoop sub maxR url p d ar a r).2 =
      List.replicate n (Event.submitCall url p d ar) := by
  intro r
  induction r with
  | zero => intro a; exact ⟨0, rfl⟩
  | succ r ih =>
    intro a
    cases h1 : attemptResult (sub a) with
    | ok u => exact ⟨1, by simp [genLoop, h1]⟩
    | error es =>
      cases h2 : parseFalError es with
      | error m => exact ⟨1, by simp [genLoop, h1, h2]⟩
      | ok p' =>
        cases h3 : pyEqStr p'.type "content_policy_violation" with
        | false => exact ⟨1, by simp [genLoop, h1, h2, h3]⟩
        | true =>
          by_cases h4 : a = maxR - 1
          · exact ⟨1, by subst h4; simp [genLoop, h1, h2, h3]⟩
          · obtain ⟨n, hn⟩ := ih (a + 1)
            exact ⟨n + 1, by simp [genLoop, h1, h2, h3, h4, hn, List.replicate_succ]⟩

theorem genLoop_allCPV (sub : Nat → AttemptResult) (maxR : Nat) (url p : String)
    (d : Int) (ar : String) (hf : ∀ i, i < maxR → cpvFailAt (sub i)) :
    ∀ r a, a + r = maxR → 1 ≤ r →
      genLoop sub maxR url p d ar a r =
        (.contentPolicyViolationError (cpvMessage maxR),
         List.replicate r (Event.submitCall url p d ar)) := by
  intro r
  induction r with
  | zero => intro a _ h1; omega
  | succ r ih =>
    intro a hsum _
    obtain ⟨s, hs, hcpv⟩ := hf a (by omega)
    have hps : ∃ p', parseFalError s = .ok p' ∧
        pyEqStr p'.type "content_policy_violation" = true := by
      unfold isCPVstr at hcpv
      cases hp : parseFalError s with
      | ok p' => exact ⟨p', rfl, by rwa [hp] at hcpv⟩
      | error m => rw [hp] at hcpv; simp at hcpv
    obtain ⟨p', hp', hpe⟩ := hps
    simp only [genLoop, hs, hp', hpe, if_true]
    rcases r with _ | r
    · rw [if_pos (by omega)]
      rfl
    · rw [if_neg (by omega)]
      rw [ih (a + 1) (by omega) (by omega)]
      simp [List.replicate_succ]

theorem genLoop_unknown (sub : Nat → AttemptResult) (maxR : Nat) (url p : String)
    (d : Int) (ar : String) (k : Nat) (s : String) (perr : ParsedError)
    (hk : attemptResult (sub k) = .error s)
    (hp : parseFalError s = .ok perr)
    (hnc : pyEqStr perr.type "content_policy_violation" = false)
    (hprev : ∀ i, i < k → cpvFailAt (sub i)) :
    ∀ r a, a + r = maxR → a ≤ k → k < maxR →
      genLoop sub maxR url p d ar a r =
        (.videoGenerationError (genFailMsg perr),
         List.replicate (k - a + 1) (Event.submitCall url p d ar)) := by
  intro r
  induction r with
  | zero => intro a hsum hak hkm; omega
  | succ r ih =>
    intro a hsum hak hkm
    by_cases hae : a = k
    · subst hae
      simp only [genLoop, hk, hp, hnc]
      simp
    · have halt : a < k := by omega
      obtain ⟨s', hs', hcpv⟩ := hprev a halt
      have hps : ∃ p', parseFalError s' = .ok p' ∧
          pyEqStr p'.type "content_policy_violation" = true := by
        unfold isCPVstr at hcpv
        cases hq : parseFalError s' with
        | ok p' => exact ⟨p', rfl, by rwa [hq] at hcpv⟩
        | error m => rw [hq] at hcpv; simp at hcpv
      obtain ⟨p', hp', hpe⟩ := hps
      simp only [genLoop, hs', hp', hpe, if_true]
      rw [if_neg (by omega)]
      rw [ih (a + 1) (by omega) (by omega) hkm]
      have hcount : k - (a + 1) + 1 + 1 = k - a + 1 := by omega
      simp only [← hcount, List.replicate_succ]

theorem countP_replicate (p : Event → Bool) (n : Nat) (e : Event) :
    (List.replicate n e).countP p = if p e then n else 0 := by
  induction n with
  | zero => simp [List.replicate]
  | succ n ih =>
    rw [List.replicate_succ, List.countP_cons]
    by_cases h : p e = true
    · simp [h, ih]
    · simp [ih, h]

theorem all_replicate (p : Event → Bool) (n : Nat) (e : Event) (h : p e = true) :
    (List.replicate n e).all p = true := by
  induction n with
  | zero => simp [List.replicate]
  | succ n ih => rw [List.replicate_succ, List.all_cons, h, ih]; rfl

/-! ### Concrete backends used by the witnesses and counterexamples -/

/-- Backend whose every attempt fails with a policy-violation error string. -/
def beAllCPV : Backend :=
  ⟨.ok "https://asset", fun _ => .failure "content policy violation"⟩

/-- Backend whose every attempt fails with an unclassifiable error string. -/
def beTimeout : Backend :=
  ⟨.ok "https://asset", fun _ => .failure "timeout"⟩

/-- Backend whose first attempt fails with a policy violation and whose second
attempt succeeds. -/
def beMixed : Backend :=
  ⟨.ok "https://asset",
   fun i => if i = 0 then .failure "content policy violation"
            else .success [("video", .pyDict [("url", .pyStr "https://v.mp4")])]⟩

/-- Backend whose every attempt returns a success response whose `video` value
is an empty dictionary (no URL); its repr contains no policy keywords. -/
def beMissingUrl : Backend :=
  ⟨.ok "https://asset", fun _ => .success [("video", .pyDict [])]⟩

/-- Backend whose first attempt returns a success response with no video URL
whose repr happens to contain the substrings "content" and "policy", and whose
second attempt succeeds. -/
def beMissingUrlCPVtext : Backend :=
  ⟨.ok "https://asset",
   fun i => if i = 0 then .success [("policy", .pyStr "content")]
            else .success [("video", .pyDict [("url", .pyStr "https://v.mp4")])]⟩

/-! ### Claim theorems -/

/-- C1: if the upload succeeds and every attempt's caught error classifies as a
content-policy violation, `generate_video_from_image` makes exactly
`max_retries` submissions and then raises `ContentPolicyViolationError`; with
`max_retries = 1` this is a single attempt and immediate failure. -/
theorem c1_all_cpv_exhausts_retries (be : Backend) (prompt : String) (d : Int)
    (ar url : String) (maxRetries : Nat) (hm : 1 ≤ maxRetries)
    (hu : be.upload = .ok url)
    (hf : ∀ i, i < maxRetries → cpvFailAt (be.subscribe i)) :
    generateVideoFromImage be prompt d ar maxRetries =
      (.contentPolicyViolationError (cpvMessage maxRetries),
       .uploadCall :: List.replicate maxRetries (.submitCall url prompt d ar)) ∧
    countSubmit (generateVideoFromImage be prompt d ar maxRetries).2 = maxRetries := by
  have h := genLoop_allCPV be.subscribe maxRetries url prompt d ar hf maxRetries 0
    (by omega) hm
  constructor
  · simp [generateVideoFromImage, hu, h]
  · simp [generateVideoFromImage, hu, h, countSubmit, List.countP_cons,
      countP_replicate, isSubmitEv]

/-- Witness for C1 at `max_retries = 1`: one submission, then the
content-policy error. -/
theorem c1_witness :
    generateVideoFromImage beAllCPV "p" 4 "16:9" 1 =
      (.contentPolicyViolationError (cpvMessage 1),
       .uploadCall :: List.replicate 1 (.submitCall "https://asset" "p" 4 "16:9")) ∧
    countSubmit (generateVideoFromImage beAllCPV "p" 4 "16:9" 1).2 = 1 :=
  c1_all_cpv_exhausts_retries beAllCPV "p" 4 "16:9" "https://asset" 1 (by omega) rfl
    (fun _ _ => ⟨"content policy violation", rfl, by decide⟩)

/-- C2: if the upload succeeds, attempts before `k` classify as policy
violations and attempt `k < max_retries - 1` classifies as anything else,
the orchestrator raises `VideoGenerationError` right away: exactly `k + 1`
submissions happen and attempt `k + 1` is never made. -/
theorem c2_unknown_fails_fast (be : Backend) (prompt : String) (d : Int)
    (ar url : String) (maxRetries k : Nat) (s : String) (perr : ParsedError)
    (hk : k < maxRetries - 1)
    (hu : be.upload = .ok url)
    (hprev : ∀ i, i < k → cpvFailAt (be.subscribe i))
    (hks : attemptResult (be.subscribe k) = .error s)
    (hp : parseFalError s = .ok perr)
    (hnc : pyEqStr perr.type "content_policy_violation" = false) :
    generateVideoFromImage be prompt d ar maxRetries =
      (.videoGenerationError (genFailMsg perr),
       .uploadCall :: List.replicate (k + 1) (.submitCall url prompt d ar)) ∧
    countSubmit (generateVideoFromImage be prompt d ar maxRetries).2 = k + 1 := by
  have h := genLoop_unknown be.subscribe maxRetries url prompt d ar k s perr hks hp hnc
    hprev maxRetries 0 (by omega) (by omega) (by omega)
  constructor
  · simpa using by simp [generateVideoFromImage, hu, h]
  · simp [generateVideoFromImage, hu, h, countSubmit, List.countP_cons,
      countP_replicate, isSubmitEv]

/-- Witness for C2 at `k = 0`, `max_retries = 2`: the "timeout" failure stops
the loop after a single submission. -/
theorem c2_witness :
    generateVideoFromImage beTimeout "p" 4 "16:9" 2 =
      (.videoGenerationError (genFailMsg ⟨.pyStr "unknown", .pyStr "timeout", .pyDict []⟩),
       .uploadCall :: List.replicate 1 (.submitCall "https://asset" "p" 4 "16:9")) ∧
    countSubmit (generateVideoFromImage beTimeout "p" 4 "16:9" 2).2 = 1 :=
  c2_unknown_fails_fast beTimeout "p" 4 "16:9" "https://asset" 2 0 "timeout"
    ⟨.pyStr "unknown", .pyStr "timeout", .pyDict []⟩ (by omega) rfl
    (fun _ hi => absurd hi (by omega)) rfl rfl rfl

/-- C3: a single call performs exactly one upload, no matter how many attempts
run or how they end, and when the upload returned a handle every submission
carries that same handle. -/
theorem c3_upload_once (be : Backend) (prompt : String) (d : Int) (ar : String)
    (maxRetries : Nat) :
    countUpload (generateVideoFromImage be prompt d ar maxRetries).2 = 1 ∧
    ∀ url, be.upload = .ok url →
      allSubmitsUse url (generateVideoFromImage be prompt d ar maxRetries).2 = true := by
  constructor
  · cases hu : be.upload with
    | error e =>
      simp [generateVideoFromImage, hu, countUpload, List.countP_cons, isUploadEv]
    | ok url =>
      obtain ⟨n, hn⟩ := genLoop_trace be.subscribe maxRetries url prompt d ar maxRetries 0
      simp [generateVideoFromImage, hu, hn, countUpload, List.countP_cons,
        countP_replicate, isUploadEv]
  · intro url hu
    obtain ⟨n, hn⟩ := genLoop_trace be.subscribe maxRetries url prompt d ar maxRetries 0
    have hall := all_replicate
      (fun e => match e with
        | .submitCall u _ _ _ => u == url
        | .uploadCall => true)
      n (Event.submitCall url prompt d ar) (by simp)
    simp [generateVideoFromImage, hu, hn, allSubmitsUse, List.all_cons, hall]

/-- Witness for C3 on a backend that retries once and then succeeds: one
upload, both submissions with the same handle. -/
theorem c3_witness :
    countUpload (generateVideoFromImage beMixed "p" 4 "16:9" 2).2 = 1 ∧
    allSubmitsUse "https://asset" (generateVideoFromImage beMixed "p" 4 "16:9" 2).2 = true :=
  ⟨(c3_upload_once beMixed "p" 4 "16:9" 2).1,
   (c3_upload_once beMixed "p" 4 "16:9" 2).2 "https://asset" rfl⟩

/-- C10: with `max_retries = 0` the upload still happens, the loop body never
runs (zero submissions), and the fall-through `VideoGenerationError` after the
loop is raised. -/
theorem c10_zero_retries (be : Backend) (prompt : String) (d : Int) (ar url : String)
    (hu : be.upload = .ok url) :
    generateVideoFromImage be prompt d ar 0 =
      (.videoGenerationError exhaustedMsg, [Event.uploadCall]) ∧
    countSubmit (generateVideoFromImage be prompt d ar 0).2 = 0 ∧
    countUpload (generateVideoFromImage be prompt d ar 0).2 = 1 := by
  refine ⟨?_, ?_, ?_⟩ <;>
    simp [generateVideoFromImage, hu, genLoop, countSubmit, countUpload,
      List.countP_cons, List.countP_nil, isSubmitEv, isUploadEv]

/-- `listStarts` decides the prefix relation. -/
theorem listStarts_iff (n : List Char) : ∀ h, listStarts n h = true ↔ n <+: h := by
  induction n with
  | nil => intro h; simp [listStarts]
  | cons a as ih =>
    intro h
    cases h with
    | nil => simp [listStarts]
    | cons b bs => simp [listStarts, ih, List.cons_prefix_cons]

/-- `listSub` (the model of Python's `in` on strings) decides the infix
relation on character lists. -/
theorem listSub_iff (n : List Char) : ∀ h, listSub n h = true ↔ n <:+: h := by
  intro h
  induction h with
  | nil =>
    simp only [listSub, List.isEmpty_iff]
    constructor
    · rintro rfl; exact List.infix_rfl
    · intro hn; exact List.sublist_nil.mp hn.sublist
  | cons b bs ih =>
    simp [listSub, listStarts_iff, ih, List.infix_cons_iff]

/-- C4 counterexample: the input "Some nsfw detected" classifies as `unknown`,
not as a content-policy violation — the keyword set named by the claim does not
exist in the code. -/
theorem c4_counterexample :
    parseFalError "Some nsfw detected" =
      .ok ⟨.pyStr "unknown", .pyStr "Some nsfw detected", .pyDict []⟩ ∧
    isCPVstr "Some nsfw detected" = false := ⟨rfl, rfl⟩

/-- C4 (amended): for error strings that do not enter the structured JSON path,
the classifier lower-cases the string and returns content_policy_violation
exactly when it contains the substring "content_policy_violation" or both of
the substrings "content" and "policy" — there is no nsfw/safety keyword set.
The structured example still classifies as a policy violation and "timeout"
still classifies as unknown. -/
theorem c4_keyword_classification (s : String)
    (h : (startsWithLB s && endsWithRB s) = false) :
    parseFalError s = .ok (kwClassify s) ∧
    ((kwClassify s).type = .pyStr "content_policy_violation" ↔
      ("content_policy_violation".toList <:+: (strLower s).toList ∨
        ("content".toList <:+: (strLower s).toList ∧
          "policy".toList <:+: (strLower s).toList))) ∧
    parseFalError "[\x7b\"type\":\"content_policy_violation\",\"msg\":\"x\"\x7d]" =
      .ok ⟨.pyStr "content_policy_violation", .pyStr "x",
           .pyDict [("type", .pyStr "content_policy_violation"), ("msg", .pyStr "x")]⟩ ∧
    parseFalError "timeout" = .ok ⟨.pyStr "unknown", .pyStr "timeout", .pyDict []⟩ := by
  refine ⟨by simp [parseFalError, h], ?_, rfl, rfl⟩
  by_cases hc : (strContains (strLower s) "content_policy_violation" ||
      (strContains (strLower s) "content" && strContains (strLower s) "policy")) = true
  · rw [show kwClassify s =
        ⟨.pyStr "content_policy_violation", .pyStr s, .pyDict []⟩ from by
      simp only [kwClassify]; rw [if_pos hc]]
    refine iff_of_true rfl ?_
    rw [Bool.or_eq_true, Bool.and_eq_true] at hc
    rcases hc with h1 | ⟨ha, hb⟩
    · exact Or.inl ((listSub_iff _ _).mp h1)
    · exact Or.inr ⟨(listSub_iff _ _).mp ha, (listSub_iff _ _).mp hb⟩
  · rw [show kwClassify s = ⟨.pyStr "unknown", .pyStr s, .pyDict []⟩ from by
      simp only [kwClassify]; rw [if_neg hc]]
    refine iff_of_false (fun hcontra => absurd (PyVal.pyStr.inj hcontra) (by decide)) ?_
    intro hr
    apply hc
    rw [Bool.or_eq_true, Bool.and_eq_true]
    rcases hr with h1 | ⟨ha, hb⟩
    · exact Or.inl ((listSub_iff _ _).mpr h1)
    · exact Or.inr ⟨(listSub_iff _ _).mpr ha, (listSub_iff _ _).mpr hb⟩

/-- Witness for C4's amended theorem at the input "Some nsfw detected"
(which takes the keyword path and classifies as unknown). -/
theorem c4_witness :
    (startsWithLB "Some nsfw detected" && endsWithRB "Some nsfw detected") = false ∧
    parseFalError "Some nsfw detected" = .ok (kwClassify "Some nsfw detected") :=
  ⟨rfl, (c4_keyword_classification "Some nsfw detected" rfl).1⟩

/-- C5 (refuted — code bug): the classifier is not total.  On "[1]" — a JSON
array whose first element is not an object — `_parse_fal_error` itself raises
`AttributeError` from `first_error.get(...)`, because the except clause
catches only `JSONDecodeError`, `KeyError` and `IndexError`. -/
theorem c5_classifier_raises_on_nonobject :
    parseFalError "[1]" = .error "'int' object has no attribute 'get'" := rfl

/-- C6 (refuted — code bug): when the encode step (`write_videofile`) raises,
the output temporary file remains on disk in both `trim_video` and
`add_letterbox_to_square` (the except branch deletes only the input file).
Failure at decode — the spec's corrupt-input test — and the success path do
clean up completely. -/
theorem c6_temp_file_leak_on_encode_failure :
    (trimVideoRun encodeFails trimStartTime true).2 = [TempFile.outputF] ∧
    (addLetterboxRun encodeFails trimStartTime).2 = [TempFile.outputF] ∧
    (trimVideoRun decodeFails trimStartTime true).2 = [] ∧
    trimVideoRun noFails trimStartTime true = (true, []) ∧
    addLetterboxRun noFails trimStartTime = (true, []) := by
  have h03 : (0 : Rat) < trimStartTime := by norm_num [trimStartTime]
  refine ⟨?_, ?_, ?_, ?_, ?_⟩ <;>
    simp [trimVideoRun, addLetterboxRun, encodeFails, decodeFails, noFails,
      exceptCleanup, h03]

/-- C7 counterexample: with `max_retries = 2`, a successful first response with
no video URL whose repr contains "content" and "policy" is routed through the
classifier, treated as a content-policy violation and retried — a second
attempt runs and the call returns success instead of raising. -/
theorem c7_counterexample :
    generateVideoFromImage beMissingUrlCPVtext "p" 4 "16:9" 2 =
      (.ok (.pyStr "https://v.mp4"),
       [.uploadCall, .submitCall "https://asset" "p" 4 "16:9",
        .submitCall "https://asset" "p" 4 "16:9"]) := rfl

/-- C7 (amended): a success response with no video URL raises an error that is
routed through the error classifier; whenever the resulting message does NOT
classify as content_policy_violation, the call fails immediately with
`VideoGenerationError` and no further attempt is made.  (The counterexample
shows the remaining case: a message matching the policy keywords is retried
like a policy violation.) -/
theorem c7_missing_url_fails_fast (be : Backend) (prompt : String) (d : Int)
    (ar url : String) (maxRetries k : Nat) (fs : List (String × PyVal))
    (s : String) (perr : ParsedError)
    (hm : k < maxRetries)
    (hu : be.upload = .ok url)
    (hprev : ∀ i, i < k → cpvFailAt (be.subscribe i))
    (hks : be.subscribe k = .success fs)
    (hex : extractVideoUrl fs = .error s)
    (hp : parseFalError s = .ok perr)
    (hnc : pyEqStr perr.type "content_policy_violation" = false) :
    generateVideoFromImage be prompt d ar maxRetries =
      (.videoGenerationError (genFailMsg perr),
       .uploadCall :: List.replicate (k + 1) (.submitCall url prompt d ar)) := by
  have hks' : attemptResult (be.subscribe k) = .error s := by
    simp [attemptResult, hks, hex]
  have h := genLoop_unknown be.subscribe maxRetries url prompt d ar k s perr hks' hp hnc
    hprev maxRetries 0 (by omega) (by omega) hm
  simpa using by simp [generateVideoFromImage, hu, h]

/-- Witness for C7's amended theorem: a first-attempt response whose `video`
value has no `url`, with two retries still in budget, fails at once. -/
theorem c7_witness :
    generateVideoFromImage beMissingUrl "p" 4 "16:9" 3 =
      (.videoGenerationError (genFailMsg ⟨.pyStr "unknown",
         .pyStr "Video URL not found in response. Full response: \x7b'video': \x7b\x7d\x7d",
         .pyDict []⟩),
       .uploadCall :: List.replicate 1 (.submitCall "https://asset" "p" 4 "16:9")) :=
  c7_missing_url_fails_fast beMissingUrl "p" 4 "16:9" "https://asset" 3 0
    [("video", .pyDict [])]
    "Video URL not found in response. Full response: \x7b'video': \x7b\x7d\x7d"
    ⟨.pyStr "unknown",
     .pyStr "Video URL not found in response. Full response: \x7b'video': \x7b\x7d\x7d",
     .pyDict []⟩
    (by omega) rfl (fun _ hi => absurd hi (by omega)) rfl rfl rfl rfl

/-- C8: `generate_character_video` submits `9:16` when `1:1` is requested and
the requested ratio otherwise (always with duration 12), and on generation
success calls `trim_video` exactly once with `start_time = 0.3` and
`square_crop = (requested == "1:1")`; `add_letterbox_to_square` is never
invoked. -/
theorem c8_aspect_ratio_remap (be : Backend) (post : Except String String)
    (promptArg : Option String) (req : String) :
    submitsRatioDur (if req == "1:1" then "9:16" else req) 12
        (generateCharacterVideo be post promptArg req).2.1 = true ∧
    (generateCharacterVideo be post promptArg req).2.2 =
      (match (generateVideoFromImage be (charPrompt promptArg) 12
                (if req == "1:1" then "9:16" else req) 1).1 with
       | .ok u => [PostEvent.trimCall u trimStartTime (req == "1:1")]
       | _ => []) ∧
    noLetterbox (generateCharacterVideo be post promptArg req).2.2 = true := by
  have hratio : ∀ ar : String, submitsRatioDur ar 12
      (generateVideoFromImage be (charPrompt promptArg) 12 ar 1).2 = true := by
    intro ar
    cases hu : be.upload with
    | error e => simp [generateVideoFromImage, hu, submitsRatioDur]
    | ok url =>
      obtain ⟨n, hn⟩ := genLoop_trace be.subscribe 1 url (charPrompt promptArg) 12 ar 1 0
      have hall := all_replicate
        (fun e => match e with
          | .submitCall _ _ dd a => a == ar && dd == 12
          | .uploadCall => true)
        n (Event.submitCall url (charPrompt promptArg) 12 ar)
        (by simp)
      simp [generateVideoFromImage, hu, hn, submitsRatioDur, List.all_cons, hall]
  have htr : (generateCharacterVideo be post promptArg req).2.1 =
      (generateVideoFromImage be (charPrompt promptArg) 12
        (if req == "1:1" then "9:16" else req) 1).2 := by
    simp only [generateCharacterVideo]
    cases hg : (generateVideoFromImage be (charPrompt promptArg) 12
        (if req == "1:1" then "9:16" else req) 1).1 <;> cases post <;> rfl
  refine ⟨by rw [htr]; exact hratio _, ?_, ?_⟩
  · simp only [generateCharacterVideo]
    cases hg : (generateVideoFromImage be (charPrompt promptArg) 12
        (if req == "1:1" then "9:16" else req) 1).1 <;> cases post <;> rfl
  · simp only [generateCharacterVideo]
    cases hg : (generateVideoFromImage be (charPrompt promptArg) 12
        (if req == "1:1" then "9:16" else req) 1).1 <;> cases post <;> rfl

/-- C9 counterexample: constructing a `VideoGenerator` with a non-empty key
mutates state outside the instance — `FAL_KEY` is written into the process
environment. -/
theorem c9_counterexample :
    videoGeneratorInit (some "secret") [] = [("FAL_KEY", "secret")] ∧
    videoGeneratorInit (some "secret") [] ≠ [] := ⟨rfl, by decide⟩

/-- C9 (amended): construction with no key (or an empty, falsy key) leaves the
process environment unchanged, but construction with a non-empty key writes it
to the shared `FAL_KEY` environment variable, a mutable state shared between
orchestrator instances. -/
theorem c9_env_mutation_on_init (env : Env) (k : String) (hk : ¬ k = "") :
    videoGeneratorInit none env = env ∧
    videoGeneratorInit (some "") env = env ∧
    videoGeneratorInit (some k) env = envSet env "FAL_KEY" k := by
  refine ⟨rfl, rfl, ?_⟩
  simp [videoGeneratorInit, hk]

/-- Witness for C9's amended theorem. -/
theorem c9_witness :
    videoGeneratorInit none [("PATH", "/bin")] = [("PATH", "/bin")] ∧
    videoGeneratorInit (some "") [("PATH", "/bin")] = [("PATH", "/bin")] ∧
    videoGeneratorInit (some "sk-2") [("PATH", "/bin")] =
      envSet [("PATH", "/bin")] "FAL_KEY" "sk-2" :=
  c9_env_mutation_on_init [("PATH", "/bin")] "sk-2" (by decide)

/-- Witness for C10. -/
theorem c10_witness :
    generateVideoFromImage beTimeout "p" 4 "16:9" 0 =
      (.videoGenerationError exhaustedMsg, [Event.uploadCall]) ∧
    countSubmit (generateVideoFromImage beTimeout "p" 4 "16:9" 0).2 = 0 ∧
    countUpload (generateVideoFromImage beTimeout "p" 4 "16:9" 0).2 = 1 :=
  c10_zero_retries beTimeout "p" 4 "16:9" "https://asset" rfl

end PmaxHelper
